import Mathlib

/-!
Verification of the two command-line tools in this repository against their
natural-language specification.

Part 1 embeds the inventory normalizer of `ansible-data-conversion.py`
(`parse_group` and the top-level parse loop) as pure functions over a tree
of JSON/YAML-like values; the four module-level accumulator tables become an
explicit state record threaded through the walk, and a raised Python
exception becomes a `Bool` flag paired with the state reached so far (Python
mutates the global tables in place, so mutations made before an exception
survive it).

Part 2 embeds the CHECK-mode driver of `site-checker.py`: hostname
resolution, flag-driven probe-plan construction, and the per-site /
per-environment loop, with probe execution abstracted to descriptors and a
raised `KeyError`/`TypeError` modelled as `Except Unit`.
-/

namespace AnsibleData

/--
A JSON/YAML document tree as consumed by the normalizer. Map keys are
strings (the ansible-inventory JSON dump has string keys throughout) and
scalar leaves are represented by their string form; the normalizer never
inspects scalar values (they are passed through to the variable tables
unchanged), so this does not affect any behaviour proved below.
-/
inductive JVal where
  | vstr : String → JVal
  | vlist : List JVal → JVal
  | vmap : List (String × JVal) → JVal
deriving Repr

mutual

/-- Python `==` on two document values. -/
def jeq : JVal → JVal → Bool
  | .vstr a, .vstr b => a == b
  | .vlist a, .vlist b => jeqList a b
  | .vmap a, .vmap b => jeqEntries a b
  | _, _ => false

/-- Python `==` on two lists of document values, elementwise. -/
def jeqList : List JVal → List JVal → Bool
  | [], [] => true
  | a :: as, b :: bs => jeq a b && jeqList as bs
  | _, _ => false

/-- Python `==` on two dicts of document values, entrywise. -/
def jeqEntries : List (String × JVal) → List (String × JVal) → Bool
  | [], [] => true
  | (k, v) :: as, (k', v') :: bs => k == k' && jeq v v' && jeqEntries as bs
  | _, _ => false

end

instance : BEq JVal := ⟨jeq⟩

/--
The four module-level accumulator tables of `ansible-data-conversion.py`:
`ansible_hosts`, `ansible_groups`, `ansible_hostvars`, `ansible_groupvars`.
Python dicts preserve insertion order, so each dict is an association list
in insertion order with unique keys.
-/
structure St where
  hosts : List JVal
  groups : List (String × List JVal)
  hostvars : List (String × List (String × JVal))
  groupvars : List (String × List (String × JVal))
deriving Repr

/-- The initial state: all four tables empty. -/
def St.init : St := ⟨[], [], [], []⟩

/-- Ordered-dict lookup: the value stored at key `k`, if present. -/
def alookup {α : Type} (m : List (String × α)) (k : String) : Option α :=
  match m with
  | [] => none
  | (k', v) :: rest => if k' = k then some v else alookup rest k

/--
Ordered-dict store `m[k] = v`: overwrites in place when the key is present
(keeping its position, as Python dicts do) and appends at the end otherwise.
-/
def aset {α : Type} (m : List (String × α)) (k : String) (v : α) : List (String × α) :=
  match m with
  | [] => [(k, v)]
  | (k', v') :: rest => if k' = k then (k, v) :: rest else (k', v') :: aset rest k v

/--
Python iteration over a value: a dict yields its keys, a string yields its
characters (as one-character strings), a list yields its elements.
-/
def pyIter : JVal → List JVal
  | .vstr s => s.toList.map (fun c => .vstr (String.singleton c))
  | .vlist xs => xs
  | .vmap kvs => kvs.map (fun kv => .vstr kv.1)

/--
One iteration of the `hosts` branch of `parse_group` (lines 77-81) for a
single listed host: the host is appended to the global host list if absent
(membership via Python `==`); then, if the group already has a membership
list the host is appended to it, and otherwise the membership list is
initialized to `[]` — the source does not append the host in that second
arm, so the first host of a group whose membership list does not exist yet
is dropped.
-/
def hostsStep (g : String) (st : St) (h : JVal) : St :=
  let hosts' := if st.hosts.contains h then st.hosts else st.hosts ++ [h]
  let groups' :=
    match alookup st.groups g with
    | some ms => aset st.groups g (ms ++ [h])
    | none => st.groups ++ [(g, [])]
  { st with hosts := hosts', groups := groups' }

/--
Registration of one child name in the `children` branch (lines 85-86):
ensure the parent's membership list exists, then append the child name.
-/
def childReg (g : String) (st : St) (sub : JVal) : St :=
  let groups' :=
    match alookup st.groups g with
    | some ms => aset st.groups g (ms ++ [sub])
    | none => st.groups ++ [(g, [sub])]
  { st with groups := groups' }

/--
One `hostvars` assignment (lines 96-100): if the host already has a variable
map, store into it (shallow overwrite); otherwise create the per-host map
and store the entry.
-/
def hvSet (tbl : List (String × List (String × JVal))) (host hk : String) (hv : JVal) :
    List (String × List (String × JVal)) :=
  match alookup tbl host with
  | some inner => aset tbl host (aset inner hk hv)
  | none => tbl ++ [(host, [(hk, hv)])]

/--
Ensure a (possibly empty) entry for `host` exists in a variable table, as
the statements `ansible_hostvars[host] = ` `{}` and
`ansible_groupvars[group_name] = ` `{}` do.
-/
def ensureEntry (tbl : List (String × List (String × JVal))) (host : String) :
    List (String × List (String × JVal)) :=
  match alookup tbl host with
  | some _ => tbl
  | none => tbl ++ [(host, [])]

/--
The `hostvars` branch body for a single `(host, varmap)` pair (lines 92-100).
When the varmap is a dict, every entry is merged with shallow overwrite.
When it is a non-empty string or list, Python raises a `TypeError` on the
first inner iteration: indexing `data_hash['hostvars'][host]` by the
iterated item fails after `ansible_hostvars[host] = ` `{}` has already run
in the not-yet-present arm (statement order in the source), so the table
gains an empty entry for the host before the exception propagates. An
empty string or list iterates zero times and changes nothing.
-/
def hostvarsOne (st : St) (host : String) (w : JVal) : St × Bool :=
  match w with
  | .vmap ws =>
      (ws.foldl (fun acc kv => { acc with hostvars := hvSet acc.hostvars host kv.1 kv.2 }) st,
        false)
  | .vstr s =>
      if s.isEmpty then (st, false)
      else ({ st with hostvars := ensureEntry st.hostvars host }, true)
  | .vlist xs =>
      if xs.isEmpty then (st, false)
      else ({ st with hostvars := ensureEntry st.hostvars host }, true)

/--
The `hostvars` branch for the whole `data_hash['hostvars']` value. When the
value is itself a non-empty string or list, the inner loop header
`for hostvar in data_hash['hostvars'][host]` raises a `TypeError` on the
first host before any mutation.
-/
def hostvarsBranch (st : St) (v : JVal) : St × Bool :=
  match v with
  | .vmap hs =>
      hs.foldl
        (fun acc kv =>
          if acc.2 then acc
          else hostvarsOne acc.1 kv.1 kv.2)
        (st, false)
  | .vstr s => (st, !s.isEmpty)
  | .vlist xs => (st, !xs.isEmpty)

/--
The `vars` branch (lines 105-109) for the whole `data_hash['vars']` value.
For a dict, each entry is merged into the group's variable map with shallow
overwrite (the map is created on first use). For a non-empty string or
list, the first iteration runs `ansible_groupvars[group_name] = ` `{}`
(when absent) and then raises a `TypeError` evaluating
`data_hash['vars'][groupvar]`.
-/
def varsBranch (g : String) (st : St) (v : JVal) : St × Bool :=
  match v with
  | .vmap ws =>
      (ws.foldl
        (fun acc kv =>
          { acc with groupvars := hvSet (ensureEntry acc.groupvars g) g kv.1 kv.2 }) st,
        false)
  | .vstr s =>
      if s.isEmpty then (st, false)
      else ({ st with groupvars := ensureEntry st.groupvars g }, true)
  | .vlist xs =>
      if xs.isEmpty then (st, false)
      else ({ st with groupvars := ensureEntry st.groupvars g }, true)

mutual

/--
The recursive walk `parse_group(group_name, data_hash)` of
`ansible-data-conversion.py` (lines 68-115). The returned `Bool` is `true`
when the call raises an uncaught Python exception; the returned state holds
all mutations made before that point.

When `data_hash` is a non-empty string, the first iterated character never
matches any of the five recognized keys (they are all longer than one
character), so the fallback branch evaluates `data_hash[item_type]` — a
string indexed by a string — and raises `TypeError` before any mutation.
When `data_hash` is a non-empty list, the first element likewise leads to
indexing the list by a non-integer (`data_hash[item_type]` in whichever
branch applies), raising `TypeError` before any mutation. Every value of
this universe is iterable, so the loop header itself never raises. An
empty string or list iterates zero times and returns normally.
-/
def parse_group (g : String) (d : JVal) (st : St) : St × Bool :=
  match d with
  | .vstr s => (st, !s.isEmpty)
  | .vlist xs => (st, !xs.isEmpty)
  | .vmap kvs => parseEntries g kvs st

/--
Iteration of `for item_type in data_hash:` over the entries of a dict node,
dispatching exactly as the `if`/`elif` chain of the source does. An
exception raised by a branch (other than the guarded `children` recursion)
stops the iteration and propagates.
-/
def parseEntries (g : String) (kvs : List (String × JVal)) (st : St) : St × Bool :=
  match kvs with
  | [] => (st, false)
  | (k, v) :: rest =>
    if k = "hosts" then
      parseEntries g rest ((pyIter v).foldl (hostsStep g) st)
    else if k = "children" then
      match v with
      | .vmap cs => parseEntries g rest (parseChildren g cs st)
      | _ =>
        -- Iterating a string or list of children registers each iterated
        -- item as a member; the guarded recursion then evaluates
        -- `data_hash[item_type][sub_group]`, which raises `TypeError` for
        -- these shapes and is swallowed by the `except` clause.
        parseEntries g rest ((pyIter v).foldl (childReg g) st)
    else if k = "hostvars" then
      match hostvarsBranch st v with
      | (st', false) => parseEntries g rest st'
      | (st', true) => (st', true)
    else if k = "groupvars" then
      -- The branch body assigns into `ansible_groupvar`, a name that is
      -- never defined, so the first iteration raises (`NameError` after
      -- the right-hand side is read from a dict, or `TypeError` first for
      -- a string/list value) with no mutation; zero iterations return
      -- normally.
      if (pyIter v).isEmpty then parseEntries g rest st else (st, true)
    else if k = "vars" then
      match varsBranch g st v with
      | (st', false) => parseEntries g rest st'
      | (st', true) => (st', true)
    else
      match parse_group k v st with
      | (st', false) => parseEntries g rest st'
      | (st', true) => (st', true)

/--
The `children` branch (lines 82-90) over a dict of children: each child
name is registered as a member of the parent, then the recursive call is
wrapped in `try`/`except: pass`, so a raised exception keeps the mutations
made so far and traversal continues with the next sibling.
-/
def parseChildren (g : String) (cs : List (String × JVal)) (st : St) : St :=
  match cs with
  | [] => st
  | (sub, subnode) :: rest =>
      parseChildren g rest (parse_group sub subnode (childReg g st (.vstr sub))).1

end

/--
The top-level parse loop (lines 160-161): `parse_group` is called for every
top-level key with no exception guard, so a raised exception aborts the
remaining top-level groups. A non-empty string or list document raises
`TypeError` at the first item when `ansible_data[data_item]` is evaluated.
-/
def normalize (doc : JVal) : St × Bool :=
  match doc with
  | .vmap kvs =>
      kvs.foldl
        (fun acc kv =>
          if acc.2 then acc else parse_group kv.1 kv.2 acc.1)
        (St.init, false)
  | .vstr s => (St.init, !s.isEmpty)
  | .vlist xs => (St.init, !xs.isEmpty)

end AnsibleData

namespace SiteChecker

/--
A YAML value as consumed by the CHECK-mode driver of `site-checker.py` at
the positions it reads: strings (`host`, `domain`, `path`, `lb`, `health`),
booleans (the `check-*` flags), and lists of strings (`servers`). The
driver only ever compares, concatenates, or iterates these values, so this
universe covers every behaviour proved below.
-/
inductive CVal where
  | str : String → CVal
  | bool : Bool → CVal
  | list : List String → CVal
deriving Repr, DecidableEq

/-- An environment record: one `sites[site][prod_status]` mapping. -/
def EnvRec : Type := List (String × CVal)

/-- Ordered-dict lookup in an environment record. -/
def lookupR (r : EnvRec) (k : String) : Option CVal :=
  match r with
  | [] => none
  | (k', v) :: rest => if k' = k then some v else lookupR rest k

/--
Python `value == True` as used on every flag read. A non-boolean value
compares unequal to `True` (no integers occur in this value universe).
-/
def pyEqTrue : CVal → Bool
  | .bool b => b
  | _ => false

/--
Python `value == ''` as used on the `host` field: true exactly for the
empty string, false for every other value of this universe.
-/
def pyEqEmptyStr : CVal → Bool
  | .str s => s.isEmpty
  | _ => false

/--
The check kinds of the probe-plan interpreter, in the order in which the
CHECK-mode body examines their flags (lines 507-581 of `site-checker.py`).
-/
inductive CheckKind where
  | pageString
  | redirect
  | httpRedir
  | httpCheck
  | httpsCheck
  | serverStatus
  | serverInfo
  | phpInfo
  | lbCheck
  | perServerCheck
  | healthCheck
deriving Repr, DecidableEq

/--
One planned probe: the check kind, the probed target (the resolved
hostname; `record.lb` for the load-balancer check; the derived per-server
hostname for per-server checks), the port, and the request path. The
follow-up content fetches that `check-status`, `check-php` and
`check-servers` issue conditionally on a passing probe are detail
reporting by the raw-content collaborator, not part of the plan.
-/
structure Desc where
  kind : CheckKind
  target : String
  port : String
  path : String
deriving Repr, DecidableEq

/--
Hostname resolution (lines 473-483): if `host` is present and equal to the
empty string, `hostname` and `short_hostname` are both the literal
`domain`; if `host` is present and non-empty, `hostname` is
`host + "." + domain` and `short_hostname` is `host`; if `host` is absent,
`hostname` is `site + "-" + prod_status + "." + domain` and
`short_hostname` is `site + "-" + prod_status`. A missing `domain` raises
`KeyError` in all three arms; a non-string `host` or `domain` raises
`TypeError` when concatenated (or at the `Host:` report line that
immediately follows, line 485).
-/
def resolve_hostname (site prod_status : String) (r : EnvRec) :
    Except Unit (String × String) :=
  match lookupR r "host" with
  | some hv =>
      if pyEqEmptyStr hv then
        match lookupR r "domain" with
        | some (.str d) => .ok (d, d)
        | _ => .error ()
      else
        match hv, lookupR r "domain" with
        | .str h, some (.str d) => .ok (h ++ "." ++ d, h)
        | _, _ => .error ()
  | none =>
      match lookupR r "domain" with
      | some (.str d) =>
          .ok (site ++ "-" ++ prod_status ++ "." ++ d, site ++ "-" ++ prod_status)
      | _ => .error ()

/--
One flag read `sites_data['sites'][site][prod_status][k] == True`: a
missing key raises `KeyError`; a present value is compared with `True`.
-/
def getFlag (r : EnvRec) (k : String) : Except Unit Bool :=
  match lookupR r k with
  | none => .error ()
  | some v => .ok (pyEqTrue v)

/--
The `check-string` step (lines 507-511): gated on the `path` key; a
non-string `path` raises `TypeError` when concatenated into the URL line.
-/
def stepString (hostname : String) (r : EnvRec) : Except Unit (List Desc) := do
  let f ← getFlag r "check-string"
  if f then
    match lookupR r "path" with
    | none => pure []
    | some (.str p) => pure [⟨.pageString, hostname, "443", p⟩]
    | some _ => .error ()
  else pure []

/--
The `check-redirect` step (lines 513-517): gated on the presence of the
`redirect` key, whose value is never read.
-/
def stepRedirect (hostname : String) (r : EnvRec) : Except Unit (List Desc) := do
  let f ← getFlag r "check-redirect"
  if f then
    match lookupR r "redirect" with
    | none => pure []
    | some _ => pure [⟨.redirect, hostname, "443", "/"⟩]
  else pure []

/-- The `check-http-redir` step (lines 519-521). -/
def stepHttpRedir (hostname : String) (r : EnvRec) : Except Unit (List Desc) := do
  let f ← getFlag r "check-http-redir"
  if f then pure [⟨.httpRedir, hostname, "80", "/"⟩] else pure []

/-- The `check-http` step (lines 523-525). -/
def stepHttp (hostname : String) (r : EnvRec) : Except Unit (List Desc) := do
  let f ← getFlag r "check-http"
  if f then pure [⟨.httpCheck, hostname, "80", "/check"⟩] else pure []

/-- The `check-https` step (lines 526-527). -/
def stepHttps (hostname : String) (r : EnvRec) : Except Unit (List Desc) := do
  let f ← getFlag r "check-https"
  if f then pure [⟨.httpsCheck, hostname, "443", "/check"⟩] else pure []

/-- The `check-status` step (lines 529-539). -/
def stepStatus (hostname : String) (r : EnvRec) : Except Unit (List Desc) := do
  let f ← getFlag r "check-status"
  if f then pure [⟨.serverStatus, hostname, "443", "/server-status"⟩] else pure []

/-- The `check-info` step (lines 541-543). -/
def stepInfo (hostname : String) (r : EnvRec) : Except Unit (List Desc) := do
  let f ← getFlag r "check-info"
  if f then pure [⟨.serverInfo, hostname, "443", "/server-info"⟩] else pure []

/-- The `check-php` step (lines 545-555). -/
def stepPhp (hostname : String) (r : EnvRec) : Except Unit (List Desc) := do
  let f ← getFlag r "check-php"
  if f then pure [⟨.phpInfo, hostname, "443", "/php-info"⟩] else pure []

/--
The `check-lb` step (lines 557-560): gated on the `lb` key; the probe's
destination is the `lb` value, which must be a string (it is concatenated
into the probe command).
-/
def stepLb (_hostname : String) (r : EnvRec) : Except Unit (List Desc) := do
  let f ← getFlag r "check-lb"
  if f then
    match lookupR r "lb" with
    | none => pure []
    | some (.str l) => pure [⟨.lbCheck, l, "443", "/check"⟩]
    | some _ => .error ()
  else pure []

/--
The `check-servers` step (lines 562-576): gated on the `servers` key; one
per-server descriptor per entry, in list order, targeting
`short_hostname + number + "." + domain`. The `domain` key is re-read
inside the loop, so a missing or non-string `domain` raises only when the
list is non-empty. A string value for `servers` is iterated
character-by-character by Python; a boolean raises `TypeError` at the loop
header.
-/
def stepServers (short : String) (r : EnvRec) : Except Unit (List Desc) := do
  let f ← getFlag r "check-servers"
  if f then
    match lookupR r "servers" with
    | none => pure []
    | some (.list ss) =>
        if ss.isEmpty then pure []
        else
          match lookupR r "domain" with
          | some (.str d) =>
              pure (ss.map fun n => ⟨.perServerCheck, short ++ n ++ "." ++ d, "80", "/check"⟩)
          | _ => .error ()
    | some (.str s) =>
        if s.isEmpty then pure []
        else
          match lookupR r "domain" with
          | some (.str d) =>
              pure ((s.toList.map String.singleton).map
                fun n => ⟨.perServerCheck, short ++ n ++ "." ++ d, "80", "/check"⟩)
          | _ => .error ()
    | some (.bool _) => .error ()
  else pure []

/--
The `check-health` step (lines 578-581): gated on the `health` key, which
must be a string (it is both the probe path and concatenated into the
report line).
-/
def stepHealth (hostname : String) (r : EnvRec) : Except Unit (List Desc) := do
  let f ← getFlag r "check-health"
  if f then
    match lookupR r "health" with
    | none => pure []
    | some (.str h) => pure [⟨.healthCheck, hostname, "443", h⟩]
    | some _ => .error ()
  else pure []

/--
Probe-plan construction for one environment (lines 507-581): the eleven
boolean flags are examined in source order, each contributing its
descriptors; a missing flag key raises `KeyError` and aborts the
environment.
-/
def build_plan (hostname short : String) (r : EnvRec) : Except Unit (List Desc) := do
  let d1 ← stepString hostname r
  let d2 ← stepRedirect hostname r
  let d3 ← stepHttpRedir hostname r
  let d4 ← stepHttp hostname r
  let d5 ← stepHttps hostname r
  let d6 ← stepStatus hostname r
  let d7 ← stepInfo hostname r
  let d8 ← stepPhp hostname r
  let d9 ← stepLb hostname r
  let d10 ← stepServers short r
  let d11 ← stepHealth hostname r
  pure (d1 ++ d2 ++ d3 ++ d4 ++ d5 ++ d6 ++ d7 ++ d8 ++ d9 ++ d10 ++ d11)

/--
Processing of one `(site, prod_status)` environment in CHECK mode:
hostname resolution (lines 473-483) followed by plan construction
(lines 507-581). The DNS report (lines 487-505) consults only the resolved
hostname and the external resolver, never the record, so it cannot raise a
configuration error and is abstracted away.
-/
def processEnv (site prod_status : String) (r : EnvRec) : Except Unit (List Desc) := do
  let (hostname, short) ← resolve_hostname site prod_status r
  build_plan hostname short r

/--
One environment iteration of the CHECK-mode driver loop: when no earlier
iteration has raised, the environment is processed and its plan recorded;
a raised error (modelled by the `Bool` flag, since the loop has no
exception handler) freezes the accumulator for the rest of the run.
-/
def checkEnvStep (siteName : String) (acc : List (String × String × List Desc) × Bool)
    (env : String × EnvRec) : List (String × String × List Desc) × Bool :=
  if acc.2 then acc
  else
    match processEnv siteName env.1 env.2 with
    | .ok plan => (acc.1 ++ [(siteName, env.1, plan)], false)
    | .error _ => (acc.1, true)

/-- One site iteration of the CHECK-mode driver loop (line 455). -/
def checkSiteStep (acc : List (String × String × List Desc) × Bool)
    (site : String × List (String × EnvRec)) : List (String × String × List Desc) × Bool :=
  site.2.foldl (checkEnvStep site.1) acc

/--
The CHECK-mode driver loop (lines 443-581) with the default configuration
(no site arguments and no environment-tag filters, so every site and every
environment is selected): sites and environments are processed in catalog
order, accumulating each environment's plan. There is no exception handler
anywhere in the loop, so the first raised error aborts the entire run; the
returned flag records whether that happened, and the list holds exactly
the environments completed before it.
-/
def runCheck (catalog : List (String × List (String × EnvRec))) :
    List (String × String × List Desc) × Bool :=
  catalog.foldl checkSiteStep ([], false)

end SiteChecker

namespace AnsibleData

/-- The C1 input: one top-level group whose node has only a `hosts` key. -/
def docC1 : JVal := .vmap [("g", .vmap [("hosts", .vlist [.vstr "h1", .vstr "h2"])])]

/-- The C6 input: the same host listed under the `hosts` key of two groups. -/
def docC6 : JVal :=
  .vmap [("g1", .vmap [("hosts", .vlist [.vstr "h"])]),
         ("g2", .vmap [("hosts", .vlist [.vstr "h"])])]

/-- The C5 input with the malformed top-level group first. -/
def docC5bad : JVal :=
  .vmap [("bad", .vstr "oops"),
         ("good", .vmap [("hosts", .vlist [.vstr "h1", .vstr "h2"])])]

/-- The C5 input with the malformed top-level group second. -/
def docC5good : JVal :=
  .vmap [("good", .vmap [("hosts", .vlist [.vstr "h1", .vstr "h2"])]),
         ("bad", .vstr "oops")]

/-- The C5 input with the malformed node inside a `children` mapping. -/
def docC5children : JVal :=
  .vmap [("top", .vmap [("children",
    .vmap [("bad", .vstr "oops"),
           ("good", .vmap [("hosts", .vlist [.vstr "h1", .vstr "h2"])])])])]

/-- The first C7 node: `hostvars` carrying `h1 -> (a -> 1)`. -/
def nodeC7a : JVal := .vmap [("hostvars", .vmap [("h1", .vmap [("a", .vstr "1")])])]

/-- The second C7 node: `hostvars` carrying `h1 -> (a -> 2, b -> 3)`. -/
def nodeC7b : JVal :=
  .vmap [("hostvars", .vmap [("h1", .vmap [("a", .vstr "2"), ("b", .vstr "3")])])]

end AnsibleData

namespace SiteChecker

/-- The eleven flag keys, all set to `false`, for building concrete records. -/
def allFlagsFalse : List (String × CVal) :=
  [("check-string", .bool false), ("check-redirect", .bool false),
   ("check-http-redir", .bool false), ("check-http", .bool false),
   ("check-https", .bool false), ("check-status", .bool false),
   ("check-info", .bool false), ("check-php", .bool false),
   ("check-lb", .bool false), ("check-servers", .bool false),
   ("check-health", .bool false)]

/--
The C3 record: all eleven flags present, `check-string` and `check-https`
true, every other flag false, no `path` key.
-/
def rC3 : EnvRec :=
  [("host", .str "w"), ("domain", .str "x.com"),
   ("check-string", .bool true), ("check-redirect", .bool false),
   ("check-http-redir", .bool false), ("check-http", .bool false),
   ("check-https", .bool true), ("check-status", .bool false),
   ("check-info", .bool false), ("check-php", .bool false),
   ("check-lb", .bool false), ("check-servers", .bool false),
   ("check-health", .bool false)]

/-- The C3 record with a `path` key added. -/
def rC3w : EnvRec := ("path", .str "/login") :: rC3

/-- The C4 record with no flag keys at all. -/
def rC4bad : EnvRec := [("host", .str "w"), ("domain", .str "x.com")]

/-- The C4 record with every flag present and false. -/
def rC4good : EnvRec := [("host", .str "w"), ("domain", .str "x.com")] ++ allFlagsFalse

/--
The eleven boolean flag keys the CHECK-mode body reads unconditionally for
every selected environment (lines 508, 514, 520, 524, 526, 530, 542, 546,
558, 563, 579), in source order.
-/
def requiredFlagKeys : List String :=
  ["check-string", "check-redirect", "check-http-redir", "check-http", "check-https",
   "check-status", "check-info", "check-php", "check-lb", "check-servers", "check-health"]

/-- The C4 witness record: every flag present and false except a missing
`check-health`. -/
def rC4badHealth : EnvRec :=
  [("host", .str "w"), ("domain", .str "x.com"),
   ("check-string", .bool false), ("check-redirect", .bool false),
   ("check-http-redir", .bool false), ("check-http", .bool false),
   ("check-https", .bool false), ("check-status", .bool false),
   ("check-info", .bool false), ("check-php", .bool false),
   ("check-lb", .bool false), ("check-servers", .bool false)]

/-- The C8 record: `check-servers` true with two server suffixes. -/
def rC8 : EnvRec :=
  [("host", .str "app-prd"), ("domain", .str "x.com"),
   ("check-string", .bool false), ("check-redirect", .bool false),
   ("check-http-redir", .bool false), ("check-http", .bool false),
   ("check-https", .bool false), ("check-status", .bool false),
   ("check-info", .bool false), ("check-php", .bool false),
   ("check-lb", .bool false), ("check-servers", .bool true),
   ("check-health", .bool false), ("servers", .list ["1", "2"])]

/--
The C10 record: every gating flag true while every companion key (`path`,
`redirect`, `lb`, `servers`, `health`) is absent.
-/
def rC10 : EnvRec :=
  [("host", .str "w"), ("domain", .str "x.com"),
   ("check-string", .bool true), ("check-redirect", .bool true),
   ("check-http-redir", .bool true), ("check-http", .bool true),
   ("check-https", .bool true), ("check-status", .bool true),
   ("check-info", .bool true), ("check-php", .bool true),
   ("check-lb", .bool true), ("check-servers", .bool true),
   ("check-health", .bool true)]

end SiteChecker

namespace AnsibleData

/-- Looking a key up past a prefix that does not contain it. -/
theorem alookup_append_of_none {α : Type} (m m' : List (String × α)) (k : String)
    (h : alookup m k = none) : alookup (m ++ m') k = alookup m' k := by
  induction m with
  | nil => rfl
  | cons kv rest ih =>
      rw [alookup] at h
      rw [List.cons_append, alookup]
      split at h
      · exact absurd h (by simp)
      · rw [if_neg (by assumption)]
        exact ih h

/-- Storing at a key and reading it back. -/
theorem alookup_aset_self {α : Type} (m : List (String × α)) (k : String) (v : α) :
    alookup (aset m k v) k = some v := by
  induction m with
  | nil => simp [aset, alookup]
  | cons kv rest ih =>
      rw [aset]
      split
      · rw [alookup, if_pos rfl]
      · rw [alookup, if_neg (by assumption)]
        exact ih

/-- Storing at a key that only occurs in the appended singleton. -/
theorem aset_append_of_none {α : Type} (m : List (String × α)) (k : String) (w v : α)
    (h : alookup m k = none) : aset (m ++ [(k, w)]) k v = m ++ [(k, v)] := by
  induction m with
  | nil => simp [aset]
  | cons kv rest ih =>
      rw [alookup] at h
      split at h
      · exact absurd h (by simp)
      · rw [List.cons_append, aset, if_neg (by assumption), ih h, List.cons_append]

end AnsibleData

namespace SiteChecker

/--
The probe plan described by the specification's plan-construction rule,
restricted by the companion-key gating the source applies: one descriptor
for each true flag, in flag-declaration order, where `check-string`,
`check-redirect`, `check-lb`, `check-servers` and `check-health` contribute
nothing when their companion key (`path`, `redirect`, `lb`, `servers`,
`health`) is absent, and `check-servers` contributes one descriptor per
entry of `servers`. This definition follows the specification's words and
is compared against the source-derived `build_plan` below.
-/
def planOf (hostname short domain : String)
    (f1 f2 f3 f4 f5 f6 f7 f8 f9 f10 f11 : Bool)
    (po : Option String) (ro : Option CVal) (lo : Option String)
    (so : Option (List String)) (ho : Option String) : List Desc :=
  (if f1 then (po.map fun p => [⟨.pageString, hostname, "443", p⟩]).getD [] else []) ++
  (if f2 then (if ro.isSome then [⟨.redirect, hostname, "443", "/"⟩] else []) else []) ++
  (if f3 then [⟨.httpRedir, hostname, "80", "/"⟩] else []) ++
  (if f4 then [⟨.httpCheck, hostname, "80", "/check"⟩] else []) ++
  (if f5 then [⟨.httpsCheck, hostname, "443", "/check"⟩] else []) ++
  (if f6 then [⟨.serverStatus, hostname, "443", "/server-status"⟩] else []) ++
  (if f7 then [⟨.serverInfo, hostname, "443", "/server-info"⟩] else []) ++
  (if f8 then [⟨.phpInfo, hostname, "443", "/php-info"⟩] else []) ++
  (if f9 then (lo.map fun l => [⟨.lbCheck, l, "443", "/check"⟩]).getD [] else []) ++
  (if f10 then
    (so.map fun ss =>
      ss.map fun n => Desc.mk .perServerCheck (short ++ n ++ "." ++ domain) "80" "/check").getD []
   else []) ++
  (if f11 then (ho.map fun h => [⟨.healthCheck, hostname, "443", h⟩]).getD [] else [])

/-- Monadic bind on a successful `Except` computation. -/
theorem ebind_ok {α β : Type} (a : α) (f : α → Except Unit β) :
    (Except.ok a >>= f : Except Unit β) = f a := rfl

/-- The `pure` of the `Except` monad is `Except.ok`. -/
theorem epure_ok {α : Type} (a : α) : (pure a : Except Unit α) = Except.ok a := rfl

theorem stepString_char (hostname : String) (r : EnvRec) (f1 : Bool) (po : Option String)
    (h1 : lookupR r "check-string" = some (.bool f1))
    (hp : lookupR r "path" = Option.map CVal.str po) :
    stepString hostname r =
      .ok (if f1 then (po.map fun p => [⟨.pageString, hostname, "443", p⟩]).getD [] else []) := by
  unfold stepString getFlag
  rw [h1]
  cases f1
  · rfl
  · cases po <;> simp_all [pyEqTrue, ebind_ok, epure_ok]

theorem stepRedirect_char (hostname : String) (r : EnvRec) (f2 : Bool) (ro : Option CVal)
    (h2 : lookupR r "check-redirect" = some (.bool f2))
    (hr : lookupR r "redirect" = ro) :
    stepRedirect hostname r =
      .ok (if f2 then (if ro.isSome then [⟨.redirect, hostname, "443", "/"⟩] else []) else []) := by
  unfold stepRedirect getFlag
  rw [h2]
  cases f2
  · rfl
  · cases ro <;> simp_all [pyEqTrue, ebind_ok, epure_ok]

theorem stepHttpRedir_char (hostname : String) (r : EnvRec) (f3 : Bool)
    (h3 : lookupR r "check-http-redir" = some (.bool f3)) :
    stepHttpRedir hostname r = .ok (if f3 then [⟨.httpRedir, hostname, "80", "/"⟩] else []) := by
  unfold stepHttpRedir getFlag
  rw [h3]
  cases f3 <;> simp [pyEqTrue, ebind_ok, epure_ok]

theorem stepHttp_char (hostname : String) (r : EnvRec) (f4 : Bool)
    (h4 : lookupR r "check-http" = some (.bool f4)) :
    stepHttp hostname r = .ok (if f4 then [⟨.httpCheck, hostname, "80", "/check"⟩] else []) := by
  unfold stepHttp getFlag
  rw [h4]
  cases f4 <;> simp [pyEqTrue, ebind_ok, epure_ok]

theorem stepHttps_char (hostname : String) (r : EnvRec) (f5 : Bool)
    (h5 : lookupR r "check-https" = some (.bool f5)) :
    stepHttps hostname r = .ok (if f5 then [⟨.httpsCheck, hostname, "443", "/check"⟩] else []) := by
  unfold stepHttps getFlag
  rw [h5]
  cases f5 <;> simp [pyEqTrue, ebind_ok, epure_ok]

theorem stepStatus_char (hostname : String) (r : EnvRec) (f6 : Bool)
    (h6 : lookupR r "check-status" = some (.bool f6)) :
    stepStatus hostname r =
      .ok (if f6 then [⟨.serverStatus, hostname, "443", "/server-status"⟩] else []) := by
  unfold stepStatus getFlag
  rw [h6]
  cases f6 <;> simp [pyEqTrue, ebind_ok, epure_ok]

theorem stepInfo_char (hostname : String) (r : EnvRec) (f7 : Bool)
    (h7 : lookupR r "check-info" = some (.bool f7)) :
    stepInfo hostname r =
      .ok (if f7 then [⟨.serverInfo, hostname, "443", "/server-info"⟩] else []) := by
  unfold stepInfo getFlag
  rw [h7]
  cases f7 <;> simp [pyEqTrue, ebind_ok, epure_ok]

theorem stepPhp_char (hostname : String) (r : EnvRec) (f8 : Bool)
    (h8 : lookupR r "check-php" = some (.bool f8)) :
    stepPhp hostname r =
      .ok (if f8 then [⟨.phpInfo, hostname, "443", "/php-info"⟩] else []) := by
  unfold stepPhp getFlag
  rw [h8]
  cases f8 <;> simp [pyEqTrue, ebind_ok, epure_ok]

theorem stepLb_char (hostname : String) (r : EnvRec) (f9 : Bool) (lo : Option String)
    (h9 : lookupR r "check-lb" = some (.bool f9))
    (hl : lookupR r "lb" = Option.map CVal.str lo) :
    stepLb hostname r =
      .ok (if f9 then (lo.map fun l => [⟨.lbCheck, l, "443", "/check"⟩]).getD [] else []) := by
  unfold stepLb getFlag
  rw [h9]
  cases f9
  · rfl
  · cases lo <;> simp_all [pyEqTrue, ebind_ok, epure_ok]

theorem stepServers_char (short : String) (r : EnvRec) (f10 : Bool) (d : String)
    (so : Option (List String))
    (h10 : lookupR r "check-servers" = some (.bool f10))
    (hs : lookupR r "servers" = Option.map CVal.list so)
    (hd : lookupR r "domain" = some (.str d)) :
    stepServers short r =
      .ok (if f10 then
        (so.map fun ss =>
          ss.map fun n =>
            Desc.mk .perServerCheck (short ++ n ++ "." ++ d) "80" "/check").getD []
       else []) := by
  unfold stepServers getFlag
  rw [h10]
  cases f10
  · rfl
  · cases so with
    | none => simp_all [pyEqTrue, ebind_ok, epure_ok]
    | some ss => cases ss <;> simp_all [pyEqTrue, ebind_ok, epure_ok]

theorem stepHealth_char (hostname : String) (r : EnvRec) (f11 : Bool) (ho : Option String)
    (h11 : lookupR r "check-health" = some (.bool f11))
    (hh : lookupR r "health" = Option.map CVal.str ho) :
    stepHealth hostname r =
      .ok (if f11 then (ho.map fun h => [⟨.healthCheck, hostname, "443", h⟩]).getD [] else []) := by
  unfold stepHealth getFlag
  rw [h11]
  cases f11
  · rfl
  · cases ho <;> simp_all [pyEqTrue, ebind_ok, epure_ok]

/--
Characterization of `build_plan` on a record that carries all eleven
boolean flags: it never raises, and the plan it returns is exactly the
specification-described `planOf`.
-/
theorem build_plan_char (hostname short : String) (r : EnvRec)
    (f1 f2 f3 f4 f5 f6 f7 f8 f9 f10 f11 : Bool) (d : String)
    (po : Option String) (ro : Option CVal) (lo : Option String)
    (so : Option (List String)) (ho : Option String)
    (h1 : lookupR r "check-string" = some (.bool f1))
    (h2 : lookupR r "check-redirect" = some (.bool f2))
    (h3 : lookupR r "check-http-redir" = some (.bool f3))
    (h4 : lookupR r "check-http" = some (.bool f4))
    (h5 : lookupR r "check-https" = some (.bool f5))
    (h6 : lookupR r "check-status" = some (.bool f6))
    (h7 : lookupR r "check-info" = some (.bool f7))
    (h8 : lookupR r "check-php" = some (.bool f8))
    (h9 : lookupR r "check-lb" = some (.bool f9))
    (h10 : lookupR r "check-servers" = some (.bool f10))
    (h11 : lookupR r "check-health" = some (.bool f11))
    (hd : lookupR r "domain" = some (.str d))
    (hp : lookupR r "path" = Option.map CVal.str po)
    (hr : lookupR r "redirect" = ro)
    (hl : lookupR r "lb" = Option.map CVal.str lo)
    (hs : lookupR r "servers" = Option.map CVal.list so)
    (hh : lookupR r "health" = Option.map CVal.str ho) :
    build_plan hostname short r =
      .ok (planOf hostname short d f1 f2 f3 f4 f5 f6 f7 f8 f9 f10 f11 po ro lo so ho) := by
  rw [build_plan, planOf,
    stepString_char hostname r f1 po h1 hp,
    stepRedirect_char hostname r f2 ro h2 hr,
    stepHttpRedir_char hostname r f3 h3,
    stepHttp_char hostname r f4 h4,
    stepHttps_char hostname r f5 h5,
    stepStatus_char hostname r f6 h6,
    stepInfo_char hostname r f7 h7,
    stepPhp_char hostname r f8 h8,
    stepLb_char hostname r f9 lo h9 hl,
    stepServers_char short r f10 d so h10 hs hd,
    stepHealth_char hostname r f11 ho h11 hh]
  rfl

end SiteChecker

namespace SiteChecker

/-- A frozen accumulator is unchanged by an environment iteration. -/
theorem checkEnvStep_frozen (siteName : String) (acc : List (String × String × List Desc) × Bool)
    (h : acc.2 = true) (env : String × EnvRec) : checkEnvStep siteName acc env = acc := by
  unfold checkEnvStep
  rw [h]
  rfl

/-- A frozen accumulator is unchanged by any run of environment iterations. -/
theorem foldl_checkEnvStep_frozen (siteName : String) (envs : List (String × EnvRec))
    (acc : List (String × String × List Desc) × Bool) (h : acc.2 = true) :
    envs.foldl (checkEnvStep siteName) acc = acc := by
  induction envs with
  | nil => rfl
  | cons e rest ih => rw [List.foldl_cons, checkEnvStep_frozen siteName acc h e, ih]

/-- A frozen accumulator is unchanged by a site iteration. -/
theorem checkSiteStep_frozen (acc : List (String × String × List Desc) × Bool)
    (h : acc.2 = true) (site : String × List (String × EnvRec)) :
    checkSiteStep acc site = acc :=
  foldl_checkEnvStep_frozen site.1 site.2 acc h

/-- A frozen accumulator is unchanged by any run of site iterations. -/
theorem foldl_checkSiteStep_frozen (rest : List (String × List (String × EnvRec)))
    (acc : List (String × String × List Desc) × Bool) (h : acc.2 = true) :
    rest.foldl checkSiteStep acc = acc := by
  induction rest with
  | nil => rfl
  | cons s r ih => rw [List.foldl_cons, checkSiteStep_frozen acc h s, ih]

/-- Hostname resolution when `host` is present and non-empty. -/
theorem resolve_hostname_host_nonempty (site ps : String) (r : EnvRec) (h d : String)
    (hh : lookupR r "host" = some (.str h)) (hne : h ≠ "")
    (hd : lookupR r "domain" = some (.str d)) :
    resolve_hostname site ps r = .ok (h ++ "." ++ d, h) := by
  unfold resolve_hostname
  rw [hh, hd]
  simp [pyEqEmptyStr, String.isEmpty_iff, hne]

/-- Hostname resolution when `host` is present and empty. -/
theorem resolve_hostname_host_empty (site ps : String) (r : EnvRec) (d : String)
    (hh : lookupR r "host" = some (.str ""))
    (hd : lookupR r "domain" = some (.str d)) :
    resolve_hostname site ps r = .ok (d, d) := by
  unfold resolve_hostname
  rw [hh, hd]
  rfl

/-- Hostname resolution when the `host` key is absent. -/
theorem resolve_hostname_no_host (site ps : String) (r : EnvRec) (d : String)
    (hh : lookupR r "host" = none)
    (hd : lookupR r "domain" = some (.str d)) :
    resolve_hostname site ps r =
      .ok (site ++ "-" ++ ps ++ "." ++ d, site ++ "-" ++ ps) := by
  unfold resolve_hostname
  rw [hh, hd]

/-- Membership in a boolean-guarded list implies membership in the list. -/
theorem mem_bIte {α : Type} (x : α) (b : Bool) (l : List α)
    (h : x ∈ (if b then l else [])) : x ∈ l := by
  cases b <;> simp_all

/--
Every descriptor of a `planOf` plan whose kind belongs to a gated check
witnesses that the corresponding companion key was present.
-/
theorem planOf_kind_mem (hostname short domain : String)
    (f1 f2 f3 f4 f5 f6 f7 f8 f9 f10 f11 : Bool)
    (po : Option String) (ro : Option CVal) (lo : Option String)
    (so : Option (List String)) (ho : Option String) (x : Desc)
    (hx : x ∈ planOf hostname short domain f1 f2 f3 f4 f5 f6 f7 f8 f9 f10 f11 po ro lo so ho) :
    (x.kind = .pageString → po ≠ none) ∧
    (x.kind = .redirect → ro ≠ none) ∧
    (x.kind = .lbCheck → lo ≠ none) ∧
    (x.kind = .perServerCheck → so ≠ none) ∧
    (x.kind = .healthCheck → ho ≠ none) := by
  unfold planOf at hx
  simp only [List.mem_append] at hx
  rcases hx with ((((((((((h | h) | h) | h) | h) | h) | h) | h) | h) | h) | h) <;>
    have h' := mem_bIte _ _ _ h
  · cases po <;> simp_all
  · cases ro <;> simp_all
  · simp_all
  · simp_all
  · simp_all
  · simp_all
  · simp_all
  · simp_all
  · cases lo <;> simp_all
  · cases so with
    | none => simp_all
    | some ss =>
        simp at h'
        obtain ⟨n, _, rfl⟩ := h'
        simp
  · cases ho <;> simp_all

end SiteChecker

namespace AnsibleData

/--
C1: the claim states that for an inventory document whose top-level groups
carry only a `hosts` key, each group's membership list equals its literal
`hosts` list in order. The code instead drops the first host of every
group whose membership list does not exist yet: on `docC1` (group `g` with
hosts `h1, h2`) the global host set is correct but `GroupMembership["g"]`
is `["h2"]`, not `["h1", "h2"]` — the `else` arm of lines 80-81 initializes
the list without appending the host.
-/
theorem C1_first_host_dropped :
    normalize docC1 =
      ({ hosts := [.vstr "h1", .vstr "h2"], groups := [("g", [.vstr "h2"])],
         hostvars := [], groupvars := [] }, false) ∧
    alookup (normalize docC1).1.groups "g" = some [.vstr "h2"] := ⟨rfl, rfl⟩

/--
C5 counterexample: the claim states that a malformed top-level group is
swallowed silently and the sibling group's tables are complete. On
`docC5bad` (malformed group `bad` first, well-formed group `good` second)
the unguarded top-level loop (lines 160-161) propagates the exception: the
run aborts with all four tables empty, `good` is never traversed, and its
group key is absent.
-/
theorem C5_counterexample :
    normalize docC5bad = (St.init, true) ∧
    alookup (normalize docC5bad).1.groups "good" = none ∧
    (normalize docC5bad).1.hosts = [] := ⟨rfl, rfl, rfl⟩

/--
C5 amended: the silent swallowing applies only to subnodes reached through
a `children` mapping — there a malformed child is skipped and its siblings
are still processed (`docC5children`). A malformed top-level group instead
raises and aborts the remaining top-level traversal, so sibling top-level
groups are reflected in the tables exactly when they precede it
(`docC5good` versus `docC5bad`).
-/
theorem C5_children_isolation_only :
    normalize docC5children =
      ({ hosts := [.vstr "h1", .vstr "h2"],
         groups := [("top", [.vstr "bad", .vstr "good"]), ("good", [.vstr "h2"])],
         hostvars := [], groupvars := [] }, false) ∧
    normalize docC5good =
      ({ hosts := [.vstr "h1", .vstr "h2"], groups := [("good", [.vstr "h2"])],
         hostvars := [], groupvars := [] }, true) ∧
    normalize docC5bad = (St.init, true) := ⟨rfl, rfl, rfl⟩

/--
C6: the claim states that a host listed under two groups lands exactly once
in the global host set and in both membership lists. The deduplication
half holds on `docC6`, but the membership half fails: `h` is the first
host of both fresh groups, so lines 80-81 drop it from both lists.
-/
theorem C6_dedup_holds_membership_lost :
    normalize docC6 =
      ({ hosts := [.vstr "h"], groups := [("g1", []), ("g2", [])],
         hostvars := [], groupvars := [] }, false) ∧
    (normalize docC6).1.hosts.count (.vstr "h") = 1 ∧
    alookup (normalize docC6).1.groups "g1" = some [] ∧
    alookup (normalize docC6).1.groups "g2" = some [] := ⟨rfl, rfl, rfl, rfl⟩

/--
C7: host-variable merging is a shallow overwrite with last-seen-wins
semantics: for any starting state with no variables yet recorded for `h1`
and any two enclosing group names, traversing a `hostvars` entry
`h1 -> (a -> 1)` followed by a `hostvars` entry `h1 -> (a -> 2, b -> 3)`
leaves exactly `(a -> 2, b -> 3)` for `h1`.
-/
theorem C7_hostvars_shallow_overwrite (st : St) (g1 g2 : String)
    (h : alookup st.hostvars "h1" = none) :
    alookup ((parse_group g2 nodeC7b (parse_group g1 nodeC7a st).1).1).hostvars "h1" =
      some [("a", .vstr "2"), ("b", .vstr "3")] := by
  have e1 : (parse_group g1 nodeC7a st).1 =
      { st with hostvars := st.hostvars ++ [("h1", [("a", JVal.vstr "1")])] } := by
    simp [nodeC7a, parse_group, parseEntries, hostvarsBranch, hostvarsOne, hvSet, h]
  rw [e1]
  have e2 : (parse_group g2 nodeC7b
      { st with hostvars := st.hostvars ++ [("h1", [("a", JVal.vstr "1")])] }).1 =
      { st with hostvars :=
          st.hostvars ++ [("h1", [("a", JVal.vstr "2"), ("b", JVal.vstr "3")])] } := by
    simp [nodeC7b, parse_group, parseEntries, hostvarsBranch, hostvarsOne, hvSet,
      alookup_append_of_none _ _ _ h, aset_append_of_none _ _ _ _ h, alookup, aset]
  rw [e2, alookup_append_of_none _ _ _ h]
  rfl

/-- Witness for C7 at the empty state and concrete group names. -/
theorem C7_hostvars_shallow_overwrite_witness :
    alookup ((parse_group "g2" nodeC7b (parse_group "g1" nodeC7a St.init).1).1).hostvars "h1" =
      some [("a", .vstr "2"), ("b", .vstr "3")] :=
  C7_hostvars_shallow_overwrite St.init "g1" "g2" rfl

/--
C9: the `groupvars` traversal branch references `ansible_groupvar`, a name
that is never defined, so for every group name, every state, and every
non-empty `groupvars` value, evaluating the branch raises with the state
unchanged — no entry is merged, and no variable reaching the tables ever
originates from a `groupvars` key.
-/
theorem C9_groupvars_branch_defective (g : String) (v : JVal)
    (rest : List (String × JVal)) (st : St) (hv : (pyIter v).isEmpty = false) :
    parseEntries g (("groupvars", v) :: rest) st = (st, true) := by
  cases v <;> simp_all [parseEntries]

/-- Witness for C9 at a concrete one-entry `groupvars` dict. -/
theorem C9_groupvars_branch_defective_witness :
    parseEntries "g" [("groupvars", .vmap [("x", .vstr "1")])] St.init = (St.init, true) :=
  C9_groupvars_branch_defective "g" (.vmap [("x", .vstr "1")]) [] St.init rfl

end AnsibleData

namespace SiteChecker

/--
C2: for every site, environment tag, and record carrying a `domain`, the
hostname resolution of lines 473-483 yields: with `host` present and
non-empty, `host + "." + domain` and short name `host`; with `host`
present and empty, `domain` for both; with `host` absent,
`site + "-" + env_tag + "." + domain` and short name
`site + "-" + env_tag` — the three mutually exclusive cases of the claim,
first match winning.
-/
theorem C2_hostname_resolution (site ps : String) (r : EnvRec) (d : String)
    (hd : lookupR r "domain" = some (.str d)) :
    (∀ h, lookupR r "host" = some (.str h) → h ≠ "" →
        resolve_hostname site ps r = .ok (h ++ "." ++ d, h)) ∧
    (lookupR r "host" = some (.str "") → resolve_hostname site ps r = .ok (d, d)) ∧
    (lookupR r "host" = none →
        resolve_hostname site ps r = .ok (site ++ "-" ++ ps ++ "." ++ d, site ++ "-" ++ ps)) :=
  ⟨fun h hh hne => resolve_hostname_host_nonempty site ps r h d hh hne hd,
   fun hh => resolve_hostname_host_empty site ps r d hh hd,
   fun hh => resolve_hostname_no_host site ps r d hh hd⟩

/-- Witness for C2 on a concrete record with a non-empty host. -/
theorem C2_hostname_resolution_witness :
    resolve_hostname "acme" "prd" [("host", .str "web1"), ("domain", .str "x.com")] =
      .ok ("web1.x.com", "web1") :=
  (C2_hostname_resolution "acme" "prd"
      [("host", .str "web1"), ("domain", .str "x.com")] "x.com" rfl).1 "web1" rfl (by decide)

/--
C3 counterexample: the claim states that a record with all boolean flags
present and exactly `check-string` and `check-https` true yields exactly
two descriptors, never zero for a true flag. On `rC3` (no `path` key) the
`check-string` flag is true yet contributes no descriptor — the plan is
the single https-check descriptor, not two.
-/
theorem C3_counterexample :
    getFlag rC3 "check-string" = .ok true ∧
    getFlag rC3 "check-https" = .ok true ∧
    processEnv "s" "prd" rC3 = .ok [⟨.httpsCheck, "w.x.com", "443", "/check"⟩] := ⟨rfl, rfl, rfl⟩

/--
C3 amended: for every record carrying the eleven boolean flags the code
reads (with `domain` present and `host` present and non-empty),
`build_plan` raises nothing and returns exactly the plan described by
`planOf`: the flags are examined in the fixed source order, each true flag
emits one descriptor provided its companion key (`path`, `redirect`, `lb`,
`servers`, `health`) is present where one is required — `check-servers`
emitting one descriptor per entry of `servers` — and flags with absent
companions contribute no descriptor; the plan is a flat sequence in
flag-declaration order.
-/
theorem C3_plan_flag_order (hostname short : String) (r : EnvRec)
    (f1 f2 f3 f4 f5 f6 f7 f8 f9 f10 f11 : Bool) (d : String)
    (po : Option String) (ro : Option CVal) (lo : Option String)
    (so : Option (List String)) (ho : Option String)
    (h1 : lookupR r "check-string" = some (.bool f1))
    (h2 : lookupR r "check-redirect" = some (.bool f2))
    (h3 : lookupR r "check-http-redir" = some (.bool f3))
    (h4 : lookupR r "check-http" = some (.bool f4))
    (h5 : lookupR r "check-https" = some (.bool f5))
    (h6 : lookupR r "check-status" = some (.bool f6))
    (h7 : lookupR r "check-info" = some (.bool f7))
    (h8 : lookupR r "check-php" = some (.bool f8))
    (h9 : lookupR r "check-lb" = some (.bool f9))
    (h10 : lookupR r "check-servers" = some (.bool f10))
    (h11 : lookupR r "check-health" = some (.bool f11))
    (hd : lookupR r "domain" = some (.str d))
    (hp : lookupR r "path" = Option.map CVal.str po)
    (hr : lookupR r "redirect" = ro)
    (hl : lookupR r "lb" = Option.map CVal.str lo)
    (hs : lookupR r "servers" = Option.map CVal.list so)
    (hh : lookupR r "health" = Option.map CVal.str ho) :
    build_plan hostname short r =
      .ok (planOf hostname short d f1 f2 f3 f4 f5 f6 f7 f8 f9 f10 f11 po ro lo so ho) :=
  build_plan_char hostname short r f1 f2 f3 f4 f5 f6 f7 f8 f9 f10 f11 d po ro lo so ho
    h1 h2 h3 h4 h5 h6 h7 h8 h9 h10 h11 hd hp hr hl hs hh

/--
Witness for C3 on `rC3w` (the claim's two-flag record with `path`
present): exactly two descriptors, page-string check before https-check.
-/
theorem C3_plan_flag_order_witness :
    build_plan "w.x.com" "w" rC3w =
      .ok [⟨.pageString, "w.x.com", "443", "/login"⟩,
           ⟨.httpsCheck, "w.x.com", "443", "/check"⟩] :=
  C3_plan_flag_order "w.x.com" "w" rC3w true false false false true false false false false
    false false "x.com" (some "/login") none none none none
    rfl rfl rfl rfl rfl rfl rfl rfl rfl rfl rfl rfl rfl rfl rfl rfl rfl

/--
C4 counterexample: the claim states that a record missing a required
boolean flag raises for that environment without aborting the processing
of other sites. In CHECK mode there is no exception handler, so on a
catalog whose first environment (`rC4bad`, no flag keys) raises, the whole
run aborts: the well-formed site `b` (which alone would produce an empty
plan successfully) is never processed and the output is empty.
-/
theorem C4_counterexample :
    processEnv "b" "prd" rC4good = .ok [] ∧
    runCheck [("a", [("prd", rC4bad)]), ("b", [("prd", rC4good)])] = ([], true) := ⟨rfl, rfl⟩

/-- A bind whose continuation always errors on a success errors overall. -/
theorem bind_eq_error {α β : Type} (x : Except Unit α) (f : α → Except Unit β)
    (hf : ∀ a, x = .ok a → f a = .error ()) : (x >>= f) = .error () := by
  cases x with
  | error e => cases e; rfl
  | ok a => rw [ebind_ok]; exact hf a rfl

/-- Reading a flag whose key is absent raises `KeyError`. -/
theorem getFlag_missing (r : EnvRec) (k : String) (h : lookupR r k = none) :
    getFlag r k = .error () := by
  unfold getFlag
  rw [h]

/--
A missing `domain` key raises in every arm of the hostname resolution:
lines 476-477, 479 and 482 all index `['domain']` unconditionally.
-/
theorem resolve_hostname_domain_missing (site ps : String) (r : EnvRec)
    (hd : lookupR r "domain" = none) :
    resolve_hostname site ps r = .error () := by
  unfold resolve_hostname
  rw [hd]
  cases hhost : lookupR r "host" with
  | none => rfl
  | some hv => cases hv <;> simp [pyEqEmptyStr]

/--
Every one of the eleven flag keys is read unconditionally by the plan
construction, so a record missing any of them makes `build_plan` raise no
matter what else the record contains.
-/
theorem build_plan_missing_flag (hostname short : String) (r : EnvRec) (k : String)
    (hk : k ∈ requiredFlagKeys) (h : lookupR r k = none) :
    build_plan hostname short r = .error () := by
  simp only [requiredFlagKeys, List.mem_cons, List.not_mem_nil, or_false] at hk
  unfold build_plan
  rcases hk with rfl | rfl | rfl | rfl | rfl | rfl | rfl | rfl | rfl | rfl | rfl
  · rw [show stepString hostname r = .error () from by
      unfold stepString; rw [getFlag_missing r _ h]; rfl]
    rfl
  · apply bind_eq_error; intro _ _
    rw [show stepRedirect hostname r = .error () from by
      unfold stepRedirect; rw [getFlag_missing r _ h]; rfl]
    rfl
  · apply bind_eq_error; intro _ _
    apply bind_eq_error; intro _ _
    rw [show stepHttpRedir hostname r = .error () from by
      unfold stepHttpRedir; rw [getFlag_missing r _ h]; rfl]
    rfl
  · apply bind_eq_error; intro _ _
    apply bind_eq_error; intro _ _
    apply bind_eq_error; intro _ _
    rw [show stepHttp hostname r = .error () from by
      unfold stepHttp; rw [getFlag_missing r _ h]; rfl]
    rfl
  · apply bind_eq_error; intro _ _
    apply bind_eq_error; intro _ _
    apply bind_eq_error; intro _ _
    apply bind_eq_error; intro _ _
    rw [show stepHttps hostname r = .error () from by
      unfold stepHttps; rw [getFlag_missing r _ h]; rfl]
    rfl
  · apply bind_eq_error; intro _ _
    apply bind_eq_error; intro _ _
    apply bind_eq_error; intro _ _
    apply bind_eq_error; intro _ _
    apply bind_eq_error; intro _ _
    rw [show stepStatus hostname r = .error () from by
      unfold stepStatus; rw [getFlag_missing r _ h]; rfl]
    rfl
  · apply bind_eq_error; intro _ _
    apply bind_eq_error; intro _ _
    apply bind_eq_error; intro _ _
    apply bind_eq_error; intro _ _
    apply bind_eq_error; intro _ _
    apply bind_eq_error; intro _ _
    rw [show stepInfo hostname r = .error () from by
      unfold stepInfo; rw [getFlag_missing r _ h]; rfl]
    rfl
  · apply bind_eq_error; intro _ _
    apply bind_eq_error; intro _ _
    apply bind_eq_error; intro _ _
    apply bind_eq_error; intro _ _
    apply bind_eq_error; intro _ _
    apply bind_eq_error; intro _ _
    apply bind_eq_error; intro _ _
    rw [show stepPhp hostname r = .error () from by
      unfold stepPhp; rw [getFlag_missing r _ h]; rfl]
    rfl
  · apply bind_eq_error; intro _ _
    apply bind_eq_error; intro _ _
    apply bind_eq_error; intro _ _
    apply bind_eq_error; intro _ _
    apply bind_eq_error; intro _ _
    apply bind_eq_error; intro _ _
    apply bind_eq_error; intro _ _
    apply bind_eq_error; intro _ _
    rw [show stepLb hostname r = .error () from by
      unfold stepLb; rw [getFlag_missing r _ h]; rfl]
    rfl
  · apply bind_eq_error; intro _ _
    apply bind_eq_error; intro _ _
    apply bind_eq_error; intro _ _
    apply bind_eq_error; intro _ _
    apply bind_eq_error; intro _ _
    apply bind_eq_error; intro _ _
    apply bind_eq_error; intro _ _
    apply bind_eq_error; intro _ _
    apply bind_eq_error; intro _ _
    rw [show stepServers short r = .error () from by
      unfold stepServers; rw [getFlag_missing r _ h]; rfl]
    rfl
  · apply bind_eq_error; intro _ _
    apply bind_eq_error; intro _ _
    apply bind_eq_error; intro _ _
    apply bind_eq_error; intro _ _
    apply bind_eq_error; intro _ _
    apply bind_eq_error; intro _ _
    apply bind_eq_error; intro _ _
    apply bind_eq_error; intro _ _
    apply bind_eq_error; intro _ _
    apply bind_eq_error; intro _ _
    rw [show stepHealth hostname r = .error () from by
      unfold stepHealth; rw [getFlag_missing r _ h]; rfl]
    rfl

/--
An environment iteration on a still-clean accumulator whose environment
raises freezes the accumulator with the raised flag set.
-/
theorem checkEnvStep_error (siteName : String)
    (acc : List (String × String × List Desc) × Bool) (env : String × EnvRec)
    (hacc : acc.2 = false) (herr : processEnv siteName env.1 env.2 = .error ()) :
    checkEnvStep siteName acc env = (acc.1, true) := by
  unfold checkEnvStep
  rw [hacc, herr]
  rfl

/-- A site iteration is the fold of its environment iterations. -/
theorem checkSiteStep_eq (acc : List (String × String × List Desc) × Bool)
    (siteName : String) (envs : List (String × EnvRec)) :
    checkSiteStep acc (siteName, envs) = envs.foldl (checkEnvStep siteName) acc := rfl

/--
When every environment before `(ps, r)` in catalog order runs clean and
`(ps, r)` raises, the run ends with exactly the clean prefix's outputs:
the remaining environments of the same site and all later sites are never
processed.
-/
theorem runCheck_abort_at (site ps : String) (r : EnvRec)
    (hpe : processEnv site ps r = .error ())
    (sitesBefore : List (String × List (String × EnvRec)))
    (envsBefore envsAfter : List (String × EnvRec))
    (sitesAfter : List (String × List (String × EnvRec)))
    (hok : (runCheck (sitesBefore ++ [(site, envsBefore)])).2 = false) :
    runCheck (sitesBefore ++ (site, envsBefore ++ (ps, r) :: envsAfter) :: sitesAfter) =
      ((runCheck (sitesBefore ++ [(site, envsBefore)])).1, true) := by
  have hpre : runCheck (sitesBefore ++ [(site, envsBefore)]) =
      List.foldl (checkEnvStep site) (List.foldl checkSiteStep ([], false) sitesBefore)
        envsBefore := by
    unfold runCheck
    rw [List.foldl_append]
    rfl
  rw [hpre] at hok
  rw [hpre]
  unfold runCheck
  rw [List.foldl_append, List.foldl_cons, checkSiteStep_eq, List.foldl_append,
    List.foldl_cons, checkEnvStep_error site _ (ps, r) hok hpe,
    foldl_checkEnvStep_frozen site envsAfter _ rfl,
    foldl_checkSiteStep_frozen sitesAfter _ rfl]

/--
C4 amended: an environment record missing any of the eleven required
boolean flag keys — or missing `domain`, which every hostname-resolution
arm reads — raises immediately for that environment and is not silently
defaulted; but the failure is not isolated per entity: whenever such an
environment is reached after a cleanly processed prefix of the catalog,
the uncaught exception aborts the entire run, so the remaining
environments of its site and all later sites are not processed and the
output holds exactly the prefix's results.
-/
theorem C4_missing_required_key_aborts (site ps : String) (r : EnvRec)
    (hmiss : (∃ k ∈ requiredFlagKeys, lookupR r k = none) ∨ lookupR r "domain" = none) :
    processEnv site ps r = .error () ∧
    ∀ sitesBefore envsBefore envsAfter sitesAfter,
      (runCheck (sitesBefore ++ [(site, envsBefore)])).2 = false →
      runCheck (sitesBefore ++ (site, envsBefore ++ (ps, r) :: envsAfter) :: sitesAfter) =
        ((runCheck (sitesBefore ++ [(site, envsBefore)])).1, true) := by
  have hpe : processEnv site ps r = .error () := by
    rcases hmiss with ⟨k, hk, h⟩ | hd
    · unfold processEnv
      apply bind_eq_error
      intro x _
      obtain ⟨hostname, short⟩ := x
      exact build_plan_missing_flag hostname short r k hk h
    · unfold processEnv
      rw [resolve_hostname_domain_missing site ps r hd]
      rfl
  exact ⟨hpe, fun sitesBefore envsBefore envsAfter sitesAfter hok =>
    runCheck_abort_at site ps r hpe sitesBefore envsBefore envsAfter sitesAfter hok⟩

/--
Witness for C4: the record missing only `check-health` aborts a three-site
catalog in which a full site and a sibling environment were already
processed cleanly; their outputs survive, the rest is never processed.
-/
theorem C4_missing_required_key_aborts_witness :
    processEnv "b" "prd" rC4badHealth = .error () ∧
    runCheck [("a", [("prd", rC4good)]),
              ("b", [("dev", rC4good), ("prd", rC4badHealth)]),
              ("c", [("prd", rC4good)])] =
      ([("a", "prd", []), ("b", "dev", [])], true) := by
  have h := C4_missing_required_key_aborts "b" "prd" rC4badHealth
    (Or.inl ⟨"check-health", by simp [requiredFlagKeys], rfl⟩)
  exact ⟨h.1, h.2 [("a", [("prd", rC4good)])] [("dev", rC4good)] [] [("c", [("prd", rC4good)])] rfl⟩

/-- Per-server descriptors all satisfy the per-server kind filter. -/
theorem filter_perServer_map (short d : String) (ss : List String) :
    (ss.map (fun n => Desc.mk .perServerCheck (short ++ n ++ "." ++ d) "80" "/check")).filter
        (fun x => x.kind == CheckKind.perServerCheck) =
      ss.map (fun n => Desc.mk .perServerCheck (short ++ n ++ "." ++ d) "80" "/check") := by
  induction ss with
  | nil => rfl
  | cons n rest ih => simp [ih]

/-- A boolean-guarded arm whose filter is empty filters to empty. -/
theorem filter_bIte {α : Type} (p : α → Bool) (b : Bool) (l : List α)
    (hl : l.filter p = []) : (if b then l else []).filter p = [] := by
  cases b <;> simp [hl]

/--
C8: for every record with all eleven flags present, `check-servers` true
and a `servers` list present, the plan's per-server descriptors are one
per entry of `servers`, in list order, each targeting
`short_hostname + suffix + "." + domain`.
-/
theorem C8_per_server_expansion (hostname short : String) (r : EnvRec)
    (f1 f2 f3 f4 f5 f6 f7 f8 f9 f11 : Bool) (d : String)
    (po : Option String) (ro : Option CVal) (lo : Option String) (ho : Option String)
    (ss : List String)
    (h1 : lookupR r "check-string" = some (.bool f1))
    (h2 : lookupR r "check-redirect" = some (.bool f2))
    (h3 : lookupR r "check-http-redir" = some (.bool f3))
    (h4 : lookupR r "check-http" = some (.bool f4))
    (h5 : lookupR r "check-https" = some (.bool f5))
    (h6 : lookupR r "check-status" = some (.bool f6))
    (h7 : lookupR r "check-info" = some (.bool f7))
    (h8 : lookupR r "check-php" = some (.bool f8))
    (h9 : lookupR r "check-lb" = some (.bool f9))
    (h10 : lookupR r "check-servers" = some (.bool true))
    (h11 : lookupR r "check-health" = some (.bool f11))
    (hd : lookupR r "domain" = some (.str d))
    (hp : lookupR r "path" = Option.map CVal.str po)
    (hr : lookupR r "redirect" = ro)
    (hl : lookupR r "lb" = Option.map CVal.str lo)
    (hs : lookupR r "servers" = some (.list ss))
    (hh : lookupR r "health" = Option.map CVal.str ho) :
    ∃ plan, build_plan hostname short r = .ok plan ∧
      plan.filter (fun x => x.kind == CheckKind.perServerCheck) =
        ss.map (fun n => Desc.mk .perServerCheck (short ++ n ++ "." ++ d) "80" "/check") := by
  refine ⟨_, build_plan_char hostname short r f1 f2 f3 f4 f5 f6 f7 f8 f9 true f11 d
    po ro lo (some ss) ho h1 h2 h3 h4 h5 h6 h7 h8 h9 h10 h11 hd hp hr hl hs hh, ?_⟩
  unfold planOf
  simp only [List.filter_append]
  rw [filter_bIte _ f1 _ (by cases po <;> simp),
    filter_bIte _ f2 _ (by cases ro <;> simp),
    filter_bIte _ f3 _ (by simp),
    filter_bIte _ f4 _ (by simp),
    filter_bIte _ f5 _ (by simp),
    filter_bIte _ f6 _ (by simp),
    filter_bIte _ f7 _ (by simp),
    filter_bIte _ f8 _ (by simp),
    filter_bIte _ f9 _ (by cases lo <;> simp),
    filter_bIte _ f11 _ (by cases ho <;> simp)]
  simp [filter_perServer_map]

/-- Witness for C8 on the claim's concrete example record. -/
theorem C8_per_server_expansion_witness :
    ∃ plan, build_plan "app-prd.x.com" "app-prd" rC8 = .ok plan ∧
      plan.filter (fun x => x.kind == CheckKind.perServerCheck) =
        [⟨.perServerCheck, "app-prd1.x.com", "80", "/check"⟩,
         ⟨.perServerCheck, "app-prd2.x.com", "80", "/check"⟩] :=
  C8_per_server_expansion "app-prd.x.com" "app-prd" rC8 false false false false false false
    false false false false "x.com" none none none none ["1", "2"]
    rfl rfl rfl rfl rfl rfl rfl rfl rfl rfl rfl rfl rfl rfl rfl rfl rfl

/--
C10: for every record with all eleven flags present, a gating flag that is
true while its companion data key is absent (`path` for `check-string`,
`redirect` for `check-redirect`, `lb` for `check-lb`, `servers` for
`check-servers`, `health` for `check-health`) raises no error and emits no
descriptor of that check's kind — the check is silently skipped.
-/
theorem C10_gated_checks_silently_skip (hostname short : String) (r : EnvRec)
    (f1 f2 f3 f4 f5 f6 f7 f8 f9 f10 f11 : Bool) (d : String)
    (po : Option String) (ro : Option CVal) (lo : Option String)
    (so : Option (List String)) (ho : Option String)
    (h1 : lookupR r "check-string" = some (.bool f1))
    (h2 : lookupR r "check-redirect" = some (.bool f2))
    (h3 : lookupR r "check-http-redir" = some (.bool f3))
    (h4 : lookupR r "check-http" = some (.bool f4))
    (h5 : lookupR r "check-https" = some (.bool f5))
    (h6 : lookupR r "check-status" = some (.bool f6))
    (h7 : lookupR r "check-info" = some (.bool f7))
    (h8 : lookupR r "check-php" = some (.bool f8))
    (h9 : lookupR r "check-lb" = some (.bool f9))
    (h10 : lookupR r "check-servers" = some (.bool f10))
    (h11 : lookupR r "check-health" = some (.bool f11))
    (hd : lookupR r "domain" = some (.str d))
    (hp : lookupR r "path" = Option.map CVal.str po)
    (hr : lookupR r "redirect" = ro)
    (hl : lookupR r "lb" = Option.map CVal.str lo)
    (hs : lookupR r "servers" = Option.map CVal.list so)
    (hh : lookupR r "health" = Option.map CVal.str ho) :
    ∃ plan, build_plan hostname short r = .ok plan ∧
      (po = none → ∀ x ∈ plan, x.kind ≠ .pageString) ∧
      (ro = none → ∀ x ∈ plan, x.kind ≠ .redirect) ∧
      (lo = none → ∀ x ∈ plan, x.kind ≠ .lbCheck) ∧
      (so = none → ∀ x ∈ plan, x.kind ≠ .perServerCheck) ∧
      (ho = none → ∀ x ∈ plan, x.kind ≠ .healthCheck) := by
  refine ⟨_, build_plan_char hostname short r f1 f2 f3 f4 f5 f6 f7 f8 f9 f10 f11 d
    po ro lo so ho h1 h2 h3 h4 h5 h6 h7 h8 h9 h10 h11 hd hp hr hl hs hh,
    ?_, ?_, ?_, ?_, ?_⟩
  · intro hn x hx hk
    exact absurd hn
      ((planOf_kind_mem hostname short d f1 f2 f3 f4 f5 f6 f7 f8 f9 f10 f11
        po ro lo so ho x hx).1 hk)
  · intro hn x hx hk
    exact absurd hn
      ((planOf_kind_mem hostname short d f1 f2 f3 f4 f5 f6 f7 f8 f9 f10 f11
        po ro lo so ho x hx).2.1 hk)
  · intro hn x hx hk
    exact absurd hn
      ((planOf_kind_mem hostname short d f1 f2 f3 f4 f5 f6 f7 f8 f9 f10 f11
        po ro lo so ho x hx).2.2.1 hk)
  · intro hn x hx hk
    exact absurd hn
      ((planOf_kind_mem hostname short d f1 f2 f3 f4 f5 f6 f7 f8 f9 f10 f11
        po ro lo so ho x hx).2.2.2.1 hk)
  · intro hn x hx hk
    exact absurd hn
      ((planOf_kind_mem hostname short d f1 f2 f3 f4 f5 f6 f7 f8 f9 f10 f11
        po ro lo so ho x hx).2.2.2.2 hk)

/--
Witness for C10 on `rC10`: every gating flag true, every companion key
absent, the plan succeeds and contains no descriptor of the gated kinds.
-/
theorem C10_gated_checks_silently_skip_witness :
    ∃ plan, build_plan "w.x.com" "w" rC10 = .ok plan ∧
      (∀ x ∈ plan, x.kind ≠ CheckKind.pageString) ∧
      (∀ x ∈ plan, x.kind ≠ CheckKind.redirect) ∧
      (∀ x ∈ plan, x.kind ≠ CheckKind.lbCheck) ∧
      (∀ x ∈ plan, x.kind ≠ CheckKind.perServerCheck) ∧
      (∀ x ∈ plan, x.kind ≠ CheckKind.healthCheck) := by
  obtain ⟨plan, hp, c1, c2, c3, c4, c5⟩ :=
    C10_gated_checks_silently_skip "w.x.com" "w" rC10 true true true true true true true
      true true true true "x.com" none none none none none
      rfl rfl rfl rfl rfl rfl rfl rfl rfl rfl rfl rfl rfl rfl rfl rfl rfl
  exact ⟨plan, hp, c1 rfl, c2 rfl, c3 rfl, c4 rfl, c5 rfl⟩

end SiteChecker
